import Mathlib

/-!
# Shallow embedding of the stalker-test-client MAC batch tester

This file embeds, in Lean 4, the decision logic of the repository's two core
source files:

* `stalker_client.py` — `StalkerClient._make_request` (lines 59–127),
  `StalkerClient.detect_api_path` (129–163) and `StalkerClient.handshake`
  (165–215);
* `test_macs.py` — `test_mac_address` (12–127), `format_mac` (144–153) and
  the batch loop of `main` (309–357).

Network responses are modelled as explicit oracle values handed to the
functions: an HTTP exchange is a `HttpOutcome` (transport error, or a status
code with a body that either is or is not JSON), a parsed JSON body is a
`TopJson` (a dict whose `js` key, when present, is either a JSON array or an
object `JsData` of the fields the code reads).  Python string truthiness and
`a or b` are modelled by `pyTruthy` / `pyOr`; Python's `str.upper` /
`str.lower` are modelled characterwise (they agree on the ASCII data these
functions handle); `pat in s` is `strContains`.  `time.sleep` calls are not
performed but logged: the loop functions return, next to the result record,
the list of sleep durations in the order the code would execute them.
-/

/-- A `status` value as it arrives in the JSON payload: the server sends the
status code either as a number or as its string form. -/
inductive StatusVal where
  | int (n : Int)
  | str (s : String)
deriving DecidableEq, Repr

/-- The fields of the `js` object that the embedded code reads
(`js_data.get(...)` / `'key' in js_data`).  A field whose key is absent from
the dict is `none`; a key present with an empty-string value is `some ""`
(presence and truthiness are distinct in the source). -/
structure JsData where
  status : Option StatusVal := none
  msg : Option String := none
  block_msg : Option String := none
  login : Option String := none
  fname : Option String := none
  expire_billing_date : Option String := none
  expirydate : Option String := none
  phone : Option String := none
  account : Option String := none
  fio : Option String := none
  token : Option String := none
  Token : Option String := none
deriving DecidableEq, Repr

/-- The value under the top-level `js` key: either a JSON array (the code only
ever tests `isinstance(js_data, list)` on it, or crashes calling `.get`), or
an object of the fields above. -/
inductive JsVal where
  | list
  | obj (d : JsData)
deriving DecidableEq, Repr

/-- The parsed top-level JSON payload, as far as the code inspects it: a dict
that may or may not carry a `js` key.  (`if response and 'js' in response:`
behaves identically for an empty dict and for a non-empty dict lacking
`js`, so both are `js := none`.) -/
structure TopJson where
  js : Option JsVal := none
deriving DecidableEq, Repr

/-- The body of an HTTP response: JSON that parses, or a body on which
`response.json()` raises `json.JSONDecodeError`. -/
inductive Body where
  | json (t : TopJson)
  | notJson
deriving DecidableEq, Repr

/-- One HTTP exchange as seen by `_make_request`: either the request itself
failed (`requests.exceptions.RequestException`: connection error, timeout),
or a response with a status code and a body arrived. -/
inductive HttpOutcome where
  | transportError
  | httpResp (code : Nat) (body : Body)
deriving DecidableEq, Repr

/-- Model of `StalkerClient._make_request` (stalker_client.py:59–127), reduced to its
data flow: a transport error returns `None`; `response.raise_for_status()`
raises `HTTPError` for codes in [400, 600) which is caught and returns
`None`; a body that fails JSON parsing returns `None`; otherwise the parsed
payload is returned. -/
def makeRequest : HttpOutcome → Option TopJson
  | HttpOutcome.transportError => none
  | HttpOutcome.httpResp code body =>
    if 400 ≤ code ∧ code < 600 then none
    else
      match body with
      | Body.notJson => none
      | Body.json t => some t

/-- Python truthiness of an optional string: `None` and `''` are falsy. -/
def pyTruthy : Option String → Bool
  | none => false
  | some s => !s.isEmpty

/-- Python `a or b` on optional strings (`js_data.get('token') or
js_data.get('Token')`): `a` if truthy, else `b`. -/
def pyOr (a b : Option String) : Option String :=
  if pyTruthy a then a else b

/-- Python `a or b` on plain strings (empty string is falsy). -/
def pyOrS (a b : String) : String :=
  if a.isEmpty then b else a

/-- The `js` value of an optional response payload, when there is one. -/
def jsOf : Option TopJson → Option JsVal
  | none => none
  | some t => t.js

/-- Model of `StalkerClient.handshake` (stalker_client.py:165–215) as a function of
the token held before the call (`self.token`, `None` on a fresh client) and
of the payload `_make_request` returned; yields the returned `bool` and the
token held afterwards.  A `js` that is a list returns `False`; a truthy
token under either spelling (`token` or `Token`, combined by Python `or`)
is stored and returns `True`; failing that, a truthy previously-held token
returns `True`; otherwise `False`. -/
def handshake (token : Option String) (resp : Option TopJson) :
    Bool × Option String :=
  match jsOf resp with
  | some JsVal.list => (false, token)
  | some (JsVal.obj d) =>
    let newTok := pyOr d.token d.Token
    if pyTruthy newTok then (true, newTok)
    else if pyTruthy token then (true, token)
    else (false, token)
  | none => (false, token)

/-- Does `text` start with `pat`? (character lists) -/
def strStarts : List Char → List Char → Bool
  | [], _ => true
  | _ :: _, [] => false
  | p :: ps, c :: cs => p == c && strStarts ps cs

/-- Substring search over a character list. -/
def containsAux (pat : List Char) : List Char → Bool
  | [] => pat.isEmpty
  | c :: cs => strStarts pat (c :: cs) || containsAux pat cs

/-- Python `pat in s` on strings. -/
def strContains (s pat : String) : Bool :=
  containsAux pat.data s.data

/-- Python `str.lower`, characterwise (agrees on ASCII). -/
def pyLower (s : String) : String :=
  String.mk (s.data.map Char.toLower)

/-- Python `str.upper`, characterwise (agrees on ASCII). -/
def pyUpper (s : String) : String :=
  String.mk (s.data.map Char.toUpper)

/-- The result dict built by `test_mac_address` (test_macs.py:25–35), with
`details` as the association list the code would store. -/
structure TestResult where
  mac : String
  handshake : Bool := false
  status : Option StatusVal := none
  message : String := ""
  authorized : Bool := false
  details : List (String × String) := []
  rate_limited : Bool := false
  was_rate_limited : Bool := false
  retry_wait_time : Nat := 0
deriving DecidableEq, Repr

/-- The initial result dict of `test_mac_address` (test_macs.py:25–35). -/
def initResult (mac : String) : TestResult := { mac := mac }

/-- The test `result['status'] == 1 or (isinstance(result['status'], str) and
result['status'] == "1")` (test_macs.py:108). -/
def statusEqOne : Option StatusVal → Bool
  | some (StatusVal.int n) => n == 1
  | some (StatusVal.str s) => s == "1"
  | none => false

/-- The body of the `if response and 'js' in response:` branch of
`test_mac_address` (test_macs.py:79–118): record status and message, compute
`has_profile_data` (key presence of `login`/`fname`/`expire_billing_date`)
and `has_error` (conflict/mismatch in the lowercased message, a truthy
`block_msg`, or an `'Authentication request'` message without profile data),
then classify. -/
def processJs (r : TestResult) (d : JsData) : TestResult :=
  let r := { r with status := d.status, message := d.msg.getD "" }
  let block_msg := d.block_msg.getD ""
  let has_profile_data :=
    d.login.isSome || d.fname.isSome || d.expire_billing_date.isSome
  let has_error :=
    strContains (pyLower r.message) "conflict" ||
    strContains (pyLower r.message) "mismatch" ||
    !block_msg.isEmpty ||
    (strContains r.message "Authentication request" && !has_profile_data)
  if has_profile_data && !has_error then
    { r with
      authorized := true,
      details :=
        [("phone", d.phone.getD ""),
         ("name", pyOrS (d.fname.getD "") (d.login.getD "")),
         ("account", d.account.getD ""),
         ("expiry", pyOrS (d.expire_billing_date.getD "") (d.expirydate.getD ""))] }
  else if has_error then
    let r := { r with authorized := false }
    if !block_msg.isEmpty then
      { r with message := r.message ++ " - " ++ block_msg }
    else r
  else if statusEqOne r.status then
    if !has_error then
      { r with
        authorized := true,
        details :=
          [("phone", d.phone.getD ""),
           ("name", d.fio.getD ""),
           ("account", d.account.getD "")] }
    else r
  else r

/-- What one iteration of the authenticate retry loop observes: the HTTP
exchange of its `_make_request` call, or an exception raised while making
the request (caught by the `except` at test_macs.py:125). -/
inductive AttemptEvent where
  | http (h : HttpOutcome)
  | raise (e : String)
deriving Repr

/-- The authenticate retry loop of `test_mac_address` (test_macs.py:46–123).
`events attempt` is what the request of iteration `attempt` observes;
`remaining` is the number of loop iterations left (`maxRetries` at entry);
`acc` logs the `time.sleep` backoff durations already performed.  A `None`
response marks `was_rate_limited`, then either sleeps `10 * 2^attempt` and
retries (when `attempt < maxRetries - 1`) or returns the rate-limited
result; a payload with a `js` object is classified by `processJs` and
returned; a `js` list raises (`list` has no `.get`), landing in the outer
`except`; a payload without `js` breaks out of the loop and the result so
far is returned. -/
def authLoop (maxRetries : Nat) (events : Nat → AttemptEvent) :
    Nat → Nat → TestResult → List Nat → TestResult × List Nat
  | 0, _, r, acc => (r, acc)
  | remaining + 1, attempt, r, acc =>
    match events attempt with
    | AttemptEvent.raise e => ({ r with message := "Error: " ++ e }, acc)
    | AttemptEvent.http h =>
      match makeRequest h with
      | none =>
        let r := { r with was_rate_limited := true }
        if attempt < maxRetries - 1 then
          let backoff := 10 * 2 ^ attempt
          authLoop maxRetries events remaining (attempt + 1)
            { r with retry_wait_time := r.retry_wait_time + backoff }
            (acc ++ [backoff])
        else
          ({ r with
              rate_limited := true,
              message := "Rate limited (max retries exceeded)" }, acc)
      | some top =>
        match top.js with
        | some (JsVal.obj d) => (processJs r d, acc)
        | some JsVal.list =>
          ({ r with message := "Error: 'list' object has no attribute 'get'" },
           acc)
        | none => (r, acc)

/-- What the handshake call of `test_mac_address` observes: the payload its
`_make_request` returned, or an exception (caught by the outer `except`). -/
inductive HsEvent where
  | resp (r : Option TopJson)
  | raise (e : String)
deriving Repr

/-- Model of `test_mac_address` (test_macs.py:12–127) as a function of the handshake
observation and the per-attempt observations, returning the result dict and
the list of backoff sleeps performed.  A fresh client holds no token, so the
handshake runs with `token = none`; a failed handshake returns the
`'Handshake failed'` result; otherwise `handshake` is recorded `True` and
the retry loop runs. -/
def testMacAddress (mac : String) (maxRetries : Nat) (hs : HsEvent)
    (events : Nat → AttemptEvent) : TestResult × List Nat :=
  let r := initResult mac
  match hs with
  | HsEvent.raise e => ({ r with message := "Error: " ++ e }, [])
  | HsEvent.resp resp =>
    if (handshake none resp).fst then
      authLoop maxRetries events maxRetries 0 { r with handshake := true } []
    else
      ({ r with message := "Handshake failed" }, [])

/-- The separator set of `format_mac` (test_macs.py:147): `:`, `-`, `.`. -/
def sepChar (c : Char) : Bool :=
  c == ':' || c == '-' || c == '.'

/-- The `clean` string of `format_mac`: the input with every occurrence of
the three single-character separators removed (the chained single-character
`str.replace` calls amount to a character filter). -/
def stripSeps (s : String) : String :=
  String.mk (s.data.filter (fun c => !sepChar c))

/-- The slices `clean[i:i+2] for i in range(0, 12, 2)`: successive
two-character chunks (the code only evaluates this on a 12-character
string). -/
def chunk2 : List Char → List String
  | a :: b :: rest => String.mk [a, b] :: chunk2 rest
  | [a] => [String.mk [a]]
  | [] => []

/-- Python `':'.join(parts)`. -/
def joinColon : List String → String
  | [] => ""
  | [x] => x
  | x :: xs => x ++ ":" ++ joinColon xs

/-- Model of `format_mac` (test_macs.py:144–153): strip separators; if 12 characters
remain, join them in pairs with colons and uppercase the whole; otherwise
return the input uppercased. -/
def format_mac (mac : String) : String :=
  let clean := stripSeps mac
  if clean.length = 12 then
    pyUpper (joinColon (chunk2 clean.data))
  else
    pyUpper mac

/-- Modelled from the spec's words for comparison with `format_mac`: "the 12
digits uppercased and grouped as 6 two-character octets joined by colons"
(uppercasing the digits first, then grouping and joining). -/
def macCanonicalSpec (digits : String) : String :=
  joinColon (chunk2 (digits.data.map Char.toUpper))

/-- What probing one candidate path observes in `detect_api_path`: a
response status code, or an exception (caught by the `except` at
stalker_client.py:155). -/
inductive ProbeOutcome where
  | status (code : Nat)
  | exn
deriving DecidableEq, Repr

/-- The candidate path list of `detect_api_path` (stalker_client.py:131–137),
in source order. -/
def common_paths : List String :=
  ["portal.php", "server/load.php", "stalker_portal/server/load.php",
   "c/version.js", "api/v1/"]

/-- The probe loop of `detect_api_path` (stalker_client.py:141–163): each
candidate is probed once, in order; a 200 status returns that path at once;
any other status or an exception advances to the next candidate; an
exhausted list yields the fallback `'server/load.php'`.  Returns the chosen
path and the log of paths probed. -/
def detectLoop (probe : String → ProbeOutcome) :
    List String → String × List String
  | [] => ("server/load.php", [])
  | p :: rest =>
    if probe p = ProbeOutcome.status 200 then (p, [p])
    else
      let (res, log) := detectLoop probe rest
      (res, p :: log)

/-- Model of `detect_api_path` (stalker_client.py:129–163): run the probe loop over
`common_paths`; the code assigns `self.api_path` to the very value it
returns in every exit (lines 151–152 and 162–163), so the pair holds the
returned path and the stored `api_path`. -/
def detect_api_path (probe : String → ProbeOutcome) :
    String × String :=
  let (res, _) := detectLoop probe common_paths
  (res, res)

/-- The probe log of `detect_api_path`, for stating that each candidate is
tried at most once and in order. -/
def detectTrace (probe : String → ProbeOutcome) : List String :=
  (detectLoop probe common_paths).snd

/-- One identity's worth of input to the batch loop of `main`
(test_macs.py:312–357): the MAC and the network observations its
`test_mac_address` call will see. -/
structure BatchInput where
  mac : String
  hs : HsEvent
  events : Nat → AttemptEvent

/-- The inter-identity sleep of `main` (test_macs.py:346–357), as the slept
duration (0 when the code skips the `time.sleep` call): with a positive
accumulated retry wait the code sleeps `max(0, delay - retry_wait_time)`
and skips the call when that is not positive; otherwise it sleeps the full
`delay`. -/
def pacingSleep (delay : ℚ) (r : TestResult) : ℚ :=
  if (r.retry_wait_time : ℚ) > 0 then
    let remaining := max 0 (delay - (r.retry_wait_time : ℚ))
    if remaining > 0 then remaining else 0
  else delay

/-- The batch loop of `main` (test_macs.py:309–357): process the identities
strictly in order (each through `test_mac_address` with the default
`max_retries = 3`), appending each result, and sleep the pacing amount
after every identity except the last.  Returns the results in order and the
inter-identity sleeps in order. -/
def runBatch (delay : ℚ) : List BatchInput → List TestResult × List ℚ
  | [] => ([], [])
  | [inp] => ([(testMacAddress inp.mac 3 inp.hs inp.events).fst], [])
  | inp :: next :: rest =>
    let r := (testMacAddress inp.mac 3 inp.hs inp.events).fst
    (r :: (runBatch delay (next :: rest)).fst,
     pacingSleep delay r :: (runBatch delay (next :: rest)).snd)

/-- A handshake response whose `js` object carries a token: the generic
successful-handshake observation used to drive the authenticate loop in the
theorems below. -/
def hsOkResp : Option TopJson :=
  some { js := some (JsVal.obj { token := some "sessiontoken" }) }

/-- The conflict markers of spec rule 2, as the code computes them from a
payload: `"conflict"` or `"mismatch"` in the lowercased message, or a truthy
`block_msg` (the first three disjuncts of `has_error`,
test_macs.py:88–91). -/
def conflictMarker (d : JsData) : Bool :=
  strContains (pyLower (d.msg.getD "")) "conflict" ||
  strContains (pyLower (d.msg.getD "")) "mismatch" ||
  !(d.block_msg.getD "").isEmpty

/-- Key-presence profile check of the code (`'login' in js_data or 'fname'
in js_data or 'expire_billing_date' in js_data`, test_macs.py:85). -/
def hasProfileData (d : JsData) : Bool :=
  d.login.isSome || d.fname.isSome || d.expire_billing_date.isSome

/-- A payload with status code 1 and the message `'Authentication request'`:
no conflict marker, no profile fields. -/
def c7_payload : JsData :=
  { status := some (StatusVal.int 1), msg := some "Authentication request" }

/-- A two-identity batch whose first identity is rate-limited on every
authenticate attempt (accumulating 30s of retry wait). -/
def c5_inputs : List BatchInput :=
  [⟨ "a", HsEvent.resp hsOkResp, fun _ => AttemptEvent.http HttpOutcome.transportError⟩,
   ⟨ "b", HsEvent.raise "boom", fun _ => AttemptEvent.http HttpOutcome.transportError⟩]

lemma pyUpper_append (a b : String) : pyUpper (a ++ b) = pyUpper a ++ pyUpper b := by
  simp [pyUpper, String.ext_iff]

lemma pyUpper_joinColon (parts : List String) :
    pyUpper (joinColon parts) = joinColon (parts.map pyUpper) := by
  induction parts with
  | nil => rfl
  | cons x xs ih =>
    cases xs with
    | nil => simp [joinColon]
    | cons y rest =>
      simp only [joinColon, List.map, pyUpper_append, ih]
      rfl

lemma chunk2_map_toUpper : ∀ l : List Char,
    chunk2 (l.map Char.toUpper) = (chunk2 l).map pyUpper
  | [] => rfl
  | [a] => rfl
  | a :: b :: rest => by
    simp only [List.map, chunk2, chunk2_map_toUpper rest]
    rfl

lemma format_mac_of_len12 (s : String) (h : (stripSeps s).length = 12) :
    format_mac s = macCanonicalSpec (stripSeps s) := by
  rw [format_mac, macCanonicalSpec, chunk2_map_toUpper, ← pyUpper_joinColon]
  simp [h]

/-- C3: a 12-hex-digit MAC in any separator style canonicalizes to the
spec's canonical form — the digits uppercased, grouped into two-character
octets, joined by colons — so any two inputs with the same separator-stripped
digits canonicalize identically; any input whose separator-stripped form is
not 12 characters long is returned uppercased, structure unchanged. -/
theorem format_mac_canonicalizes (s : String) :
    ((stripSeps s).length = 12 →
      format_mac s = macCanonicalSpec (stripSeps s) ∧
      ∀ t, stripSeps t = stripSeps s → format_mac t = format_mac s) ∧
    ((stripSeps s).length ≠ 12 → format_mac s = pyUpper s) := by
  constructor
  · intro h
    refine ⟨format_mac_of_len12 s h, fun t ht => ?_⟩
    rw [format_mac_of_len12 s h, format_mac_of_len12 t (ht ▸ h), ht]
  · intro h
    simp [format_mac, h]

/-- Witness for C3 at `"00:1a-79.16ba00"` (mixed separators) and at the
11-character `"001A7916BA0"`. -/
theorem format_mac_canonicalizes_witness :
    format_mac "00:1a-79.16ba00" = macCanonicalSpec (stripSeps "00:1a-79.16ba00") ∧
    format_mac "001A7916BA0" = pyUpper "001A7916BA0" :=
  ⟨((format_mac_canonicalizes "00:1a-79.16ba00").1 (by decide)).1,
   (format_mac_canonicalizes "001A7916BA0").2 (by decide)⟩

lemma detectLoop_eq (probe : String → ProbeOutcome) : ∀ l : List String,
    detectLoop probe l =
      ((l.find? fun p => probe p == ProbeOutcome.status 200).getD "server/load.php",
       l.takeWhile (fun p => !(probe p == ProbeOutcome.status 200)) ++
         (l.dropWhile (fun p => !(probe p == ProbeOutcome.status 200))).take 1)
  | [] => rfl
  | p :: rest => by
    by_cases h : probe p = ProbeOutcome.status 200
    · simp [detectLoop, h, List.find?_cons, List.takeWhile_cons, List.dropWhile_cons]
    · have hb : (probe p == ProbeOutcome.status 200) = false := by
        simp [h]
      simp [detectLoop, h, hb, List.find?_cons, List.takeWhile_cons,
        List.dropWhile_cons, detectLoop_eq probe rest]

/-- C8: `detect_api_path` probes the fixed candidate list in order and
returns (and stores in `api_path`) the first path whose probe answers 200;
its probe log is the failing candidates in list order, each probed once,
followed by the first success if any; with no success it returns the
fallback `'server/load.php'`. -/
theorem detect_api_path_first_success (probe : String → ProbeOutcome) :
    (detect_api_path probe).fst =
      ((common_paths.find? fun p => probe p == ProbeOutcome.status 200).getD
        "server/load.php") ∧
    (detect_api_path probe).snd = (detect_api_path probe).fst ∧
    detectTrace probe =
      common_paths.takeWhile (fun p => !(probe p == ProbeOutcome.status 200)) ++
        (common_paths.dropWhile
          (fun p => !(probe p == ProbeOutcome.status 200))).take 1 := by
  refine ⟨?_, rfl, ?_⟩
  · rw [detect_api_path, detectLoop_eq]
  · rw [detectTrace, detectLoop_eq]

/-- C1 counterexample: with `max_retries = 3` and every authenticate attempt
failing as rate-limited, the backoff sleeps actually performed are 10 and 20
seconds only — the claimed third 40-second wait never happens, because the
backoff branch requires `attempt < max_retries - 1`. -/
theorem c1_backoff_counterexample :
    (testMacAddress "00:1A:79:AA:BB:CC" 3 (HsEvent.resp hsOkResp)
        (fun _ => AttemptEvent.http HttpOutcome.transportError)).snd = [10, 20] ∧
    (testMacAddress "00:1A:79:AA:BB:CC" 3 (HsEvent.resp hsOkResp)
        (fun _ => AttemptEvent.http HttpOutcome.transportError)).snd ≠
      [10, 20, 40] := by
  decide

/-- C1 (amended): in a run with `max_retries = 3` whose handshake succeeds
and whose every authenticate attempt fails as rate-limited (a `None`
payload), the backoff waits applied are exactly 10 and 20 seconds (base 10s
times `2^attempt` before each of the two retries, 30s in total), and the
identity's outcome is rate-limit exhaustion: `rate_limited = True` with the
max-retries message — never a silent unknown. -/
theorem c1_backoff_exhaustion (resp : Option TopJson)
    (events : Nat → AttemptEvent) (mac : String)
    (hhs : (handshake none resp).fst = true)
    (h : ∀ i, i < 3 → ∃ o, events i = AttemptEvent.http o ∧ makeRequest o = none) :
    testMacAddress mac 3 (HsEvent.resp resp) events =
      ({ mac := mac, handshake := true, status := none,
         message := "Rate limited (max retries exceeded)", authorized := false,
         details := [], rate_limited := true, was_rate_limited := true,
         retry_wait_time := 30 }, [10, 20]) := by
  obtain ⟨o0, e0, m0⟩ := h 0 (by norm_num)
  obtain ⟨o1, e1, m1⟩ := h 1 (by norm_num)
  obtain ⟨o2, e2, m2⟩ := h 2 (by norm_num)
  simp [testMacAddress, hhs, authLoop, e0, m0, e1, m1, e2, m2, initResult]

/-- Witness for the amended C1 at a concrete all-rate-limited run. -/
theorem c1_backoff_exhaustion_witness :
    testMacAddress "00:1A:79:16:BA:00" 3 (HsEvent.resp hsOkResp)
        (fun _ => AttemptEvent.http HttpOutcome.transportError) =
      ({ mac := "00:1A:79:16:BA:00", handshake := true, status := none,
         message := "Rate limited (max retries exceeded)", authorized := false,
         details := [], rate_limited := true, was_rate_limited := true,
         retry_wait_time := 30 }, [10, 20]) :=
  c1_backoff_exhaustion hsOkResp _ "00:1A:79:16:BA:00" (by decide)
    (fun _ _ => ⟨HttpOutcome.transportError, rfl, rfl⟩)

/-- C4 counterexample: an authenticate response with a non-JSON body is NOT
terminal — `_make_request` collapses the JSON parse failure into `None`, so
the retry loop treats it as rate-limit-equivalent and retries it under the
backoff schedule (sleeping 10s and 20s and marking `was_rate_limited`). -/
theorem c4_malformed_counterexample :
    (testMacAddress "00:1A:79:AA:BB:CD" 3 (HsEvent.resp hsOkResp)
        (fun _ => AttemptEvent.http (HttpOutcome.httpResp 200 Body.notJson))).snd =
      [10, 20] ∧
    (testMacAddress "00:1A:79:AA:BB:CD" 3 (HsEvent.resp hsOkResp)
        (fun _ => AttemptEvent.http
          (HttpOutcome.httpResp 200 Body.notJson))).fst.was_rate_limited =
      true := by
  decide

/-- C4 (amended): at the authenticate step a JSON response lacking a usable
`js` payload is terminal for the identity and classified Unknown — the loop
breaks at once, performing no backoff sleep and leaving every flag at its
default; a non-JSON body, by contrast, is returned as `None` by
`_make_request`, indistinguishable from a rate-limited transport rejection,
and therefore IS retried under the backoff schedule. -/
theorem c4_malformed_terminal (mac : String) (events : Nat → AttemptEvent)
    (h0 : events 0 =
      AttemptEvent.http (HttpOutcome.httpResp 200 (Body.json { js := none }))) :
    testMacAddress mac 3 (HsEvent.resp hsOkResp) events =
      ({ initResult mac with handshake := true }, []) ∧
    makeRequest (HttpOutcome.httpResp 200 Body.notJson) = none := by
  refine ⟨?_, rfl⟩
  have hhs : (handshake none hsOkResp).fst = true := by decide
  simp [testMacAddress, hhs, authLoop, h0, makeRequest]

/-- Witness for the amended C4 at a concrete js-less JSON response. -/
theorem c4_malformed_terminal_witness :
    testMacAddress "00:1A:79:16:BA:01" 3 (HsEvent.resp hsOkResp)
        (fun _ => AttemptEvent.http
          (HttpOutcome.httpResp 200 (Body.json { js := none }))) =
      ({ initResult "00:1A:79:16:BA:01" with handshake := true }, []) :=
  (c4_malformed_terminal "00:1A:79:16:BA:01" _ rfl).1

lemma processJs_conflict_not_authorized (r : TestResult) (d : JsData)
    (hc : conflictMarker d = true) : (processJs r d).authorized = false := by
  unfold conflictMarker at hc
  have hc2 : strContains (pyLower (d.msg.getD "")) "conflict" = true ∨
      strContains (pyLower (d.msg.getD "")) "mismatch" = true ∨
      (!(d.block_msg.getD "").isEmpty) = true := by
    simpa [or_assoc] using hc
  rcases hc2 with h1 | h2 | h3
  · simp [processJs, h1]
    split <;> simp
  · simp [processJs, h2]
    split <;> simp
  · simp [processJs, h3]

/-- C2: any authenticate payload whose message contains `"conflict"` or
`"mismatch"` (case-insensitively) or that carries a truthy block message is
classified as a conflict — `authorized` is `False` — even when the payload
also carries profile fields or status code 1: the conflict rule overrides
the authorized rules. -/
theorem c2_conflict_overrides (mac : String) (events : Nat → AttemptEvent)
    (d : JsData)
    (h0 : events 0 = AttemptEvent.http
      (HttpOutcome.httpResp 200 (Body.json { js := some (JsVal.obj d) })))
    (hc : conflictMarker d = true) :
    (testMacAddress mac 3 (HsEvent.resp hsOkResp) events).fst.authorized =
      false := by
  have hhs : (handshake none hsOkResp).fst = true := by decide
  simp [testMacAddress, hhs, authLoop, h0, makeRequest,
    processJs_conflict_not_authorized _ _ hc]

/-- Witness for C2: the message `"Device conflict: mismatch"` with profile
data present and status code 1 is still not authorized. -/
theorem c2_conflict_overrides_witness :
    conflictMarker
        { status := some (StatusVal.int 1),
          msg := some "Device conflict: mismatch",
          login := some "bob" } = true ∧
    (testMacAddress "00:1A:79:16:BA:02" 3 (HsEvent.resp hsOkResp)
        (fun _ => AttemptEvent.http (HttpOutcome.httpResp 200
          (Body.json { js := some (JsVal.obj
            { status := some (StatusVal.int 1),
              msg := some "Device conflict: mismatch",
              login := some "bob" }) })))).fst.authorized = false :=
  ⟨by decide,
   c2_conflict_overrides "00:1A:79:16:BA:02" _ _ rfl (by decide)⟩

/-- C7 counterexample: a payload with status code 1, no conflict markers and
no profile fields is NOT always authorized — the message
`'Authentication request'` (with no profile data) is a fourth error
condition of the code, so this payload classifies as not authorized. -/
theorem c7_status_one_counterexample :
    conflictMarker c7_payload = false ∧
    hasProfileData c7_payload = false ∧
    statusEqOne c7_payload.status = true ∧
    (testMacAddress "00:1A:79:16:BA:07" 3 (HsEvent.resp hsOkResp)
        (fun _ => AttemptEvent.http (HttpOutcome.httpResp 200
          (Body.json { js := some (JsVal.obj c7_payload) })))).fst.authorized =
      false := by
  decide

/-- C7 (amended): a payload with no conflict markers, no profile fields, and
a message not containing `'Authentication request'` (the code's
pending-authentication error marker) is classified Authorized when the
status code is the integer 1 and equally when it is the string `"1"`: both
representations normalize to the same classification. -/
theorem c7_status_one_authorized (mac : String) (events : Nat → AttemptEvent)
    (d : JsData)
    (h0 : events 0 = AttemptEvent.http
      (HttpOutcome.httpResp 200 (Body.json { js := some (JsVal.obj d) })))
    (hc : conflictMarker d = false)
    (hp : hasProfileData d = false)
    (ha : strContains (d.msg.getD "") "Authentication request" = false)
    (hs : d.status = some (StatusVal.int 1) ∨ d.status = some (StatusVal.str "1")) :
    (testMacAddress mac 3 (HsEvent.resp hsOkResp) events).fst.authorized =
      true := by
  have hhs : (handshake none hsOkResp).fst = true := by decide
  have hone : statusEqOne d.status = true := by
    rcases hs with h | h <;> simp [h, statusEqOne]
  unfold conflictMarker at hc
  unfold hasProfileData at hp
  have hc1 : strContains (pyLower (d.msg.getD "")) "conflict" = false := by
    revert hc
    cases strContains (pyLower (d.msg.getD "")) "conflict" <;> simp
  have hc2 : strContains (pyLower (d.msg.getD "")) "mismatch" = false := by
    revert hc
    cases strContains (pyLower (d.msg.getD "")) "mismatch" <;> simp
  have hc3 : (d.block_msg.getD "").isEmpty = true := by
    revert hc
    cases h : (d.block_msg.getD "").isEmpty <;> simp
  simp [testMacAddress, hhs, authLoop, h0, makeRequest, processJs, hp, hc1,
    hc2, hc3, ha, hone]

/-- Witness for the amended C7 at a status `"1"` payload with an empty
message. -/
theorem c7_status_one_authorized_witness :
    (testMacAddress "00:1A:79:16:BA:03" 3 (HsEvent.resp hsOkResp)
        (fun _ => AttemptEvent.http (HttpOutcome.httpResp 200
          (Body.json { js := some (JsVal.obj
            { status := some (StatusVal.str "1") }) })))).fst.authorized =
      true :=
  c7_status_one_authorized "00:1A:79:16:BA:03" _ _ rfl (by decide) (by decide)
    (by decide) (Or.inr rfl)

/-- C6: `handshake()` returns `True` exactly when the response's `js` object
carries a truthy token under either field spelling (`token` or `Token`,
combined as Python `or`) or, the response omitting a new token, a token
from a previous exchange is already held; a truthy new token is stored;
and a `js` that is a list yields `False` (without raising — the function is
total), leaving the session in the handshake-failed state with the token
unchanged. -/
theorem handshake_success_iff (token : Option String) (resp : Option TopJson) :
    ((handshake token resp).fst = true ↔
      ∃ d, jsOf resp = some (JsVal.obj d) ∧
        (pyTruthy (pyOr d.token d.Token) = true ∨ pyTruthy token = true)) ∧
    (∀ d, jsOf resp = some (JsVal.obj d) →
      pyTruthy (pyOr d.token d.Token) = true →
      (handshake token resp).snd = pyOr d.token d.Token) ∧
    (jsOf resp = some JsVal.list →
      handshake token resp = (false, token)) := by
  refine ⟨?_, ?_, ?_⟩
  · unfold handshake
    cases hj : jsOf resp with
    | none => simp
    | some v =>
      cases v with
      | list => simp
      | obj d =>
        by_cases h1 : pyTruthy (pyOr d.token d.Token) = true
        · simp [h1]
        · by_cases h2 : pyTruthy token = true
          · simp [h1, h2]
          · simp [h1, h2]
  · intro d hd ht
    unfold handshake
    rw [hd]
    simp [ht]
  · intro hl
    unfold handshake
    rw [hl]

/-- Witness for C6: a fresh session (no prior token) succeeds on a response
whose `js` object carries a `Token`-spelled token, and stores it. -/
theorem handshake_success_iff_witness :
    (handshake none (some { js := some (JsVal.obj { Token := some "tk" }) })).fst =
      true ∧
    (handshake none (some { js := some (JsVal.obj { Token := some "tk" }) })).snd =
      pyOr (JsData.token { Token := some "tk" }) (JsData.Token { Token := some "tk" }) :=
  ⟨(handshake_success_iff none _).1.mpr ⟨{ Token := some "tk" }, rfl, Or.inl (by decide)⟩,
   (handshake_success_iff none _).2.1 { Token := some "tk" } rfl (by decide)⟩

lemma pacingSleep_eq (delay : ℚ) (hd : 0 ≤ delay) (r : TestResult) :
    pacingSleep delay r = max 0 (delay - (r.retry_wait_time : ℚ)) := by
  unfold pacingSleep
  by_cases h : (0 : ℚ) < (r.retry_wait_time : ℚ)
  · simp only [gt_iff_lt, h, if_true]
    by_cases h2 : (0 : ℚ) < max 0 (delay - (r.retry_wait_time : ℚ))
    · simp [h2]
    · have h3 : max 0 (delay - (r.retry_wait_time : ℚ)) = 0 :=
        le_antisymm (not_lt.mp h2) (le_max_left _ _)
      simp [h2, h3]
  · have h0 : (r.retry_wait_time : ℚ) = 0 := by
      have hn : (0 : ℚ) ≤ (r.retry_wait_time : ℚ) := Nat.cast_nonneg _
      linarith [not_lt.mp h]
    rw [if_neg (by simpa using h), h0, sub_zero, max_eq_right hd]

lemma runBatch_results (delay : ℚ) : ∀ inputs,
    (runBatch delay inputs).fst =
      inputs.map (fun inp => (testMacAddress inp.mac 3 inp.hs inp.events).fst)
  | [] => rfl
  | [_] => rfl
  | a :: b :: rest => by
    simp [runBatch, runBatch_results delay (b :: rest)]

lemma runBatch_sleeps (delay : ℚ) : ∀ inputs,
    (runBatch delay inputs).snd =
      ((runBatch delay inputs).fst.dropLast).map (pacingSleep delay)
  | [] => rfl
  | [_] => rfl
  | a :: b :: rest => by
    simp only [runBatch, runBatch_sleeps delay (b :: rest),
      runBatch_results delay (b :: rest), List.map_cons, List.dropLast_cons₂]

/-- C5: with a non-negative pacing interval, the batch loop sleeps exactly
`max(0, delay - retry_wait_time)` after each identity except the last — so
0 when the accumulated retry wait meets or exceeds the interval, never a
negative duration, never the full interval on top of elapsed retry waits —
and performs no sleep after the last identity (the sleep list has one entry
per non-final identity). -/
theorem c5_batch_pacing (delay : ℚ) (inputs : List BatchInput)
    (hd : 0 ≤ delay) :
    (runBatch delay inputs).fst.length = inputs.length ∧
    (runBatch delay inputs).snd.length = inputs.length - 1 ∧
    (runBatch delay inputs).snd =
      ((runBatch delay inputs).fst.dropLast).map
        (fun r => max 0 (delay - (r.retry_wait_time : ℚ))) := by
  have hmap : pacingSleep delay =
      fun r => max 0 (delay - (r.retry_wait_time : ℚ)) :=
    funext (pacingSleep_eq delay hd)
  refine ⟨by rw [runBatch_results]; simp, ?_, by rw [runBatch_sleeps, hmap]⟩
  rw [runBatch_sleeps]
  simp [runBatch_results delay inputs]

/-- Witness for C5: a two-identity batch with pacing interval 10s whose
first identity accumulated 30s of retry wait sleeps 0s between the two
identities. -/
theorem c5_batch_pacing_witness :
    (runBatch 10 c5_inputs).snd =
      ((runBatch 10 c5_inputs).fst.dropLast).map
        (fun r => max 0 (10 - (r.retry_wait_time : ℚ))) ∧
    (runBatch 10 c5_inputs).snd = [0] := by
  have h := (c5_batch_pacing 10 c5_inputs (by norm_num)).2.2
  refine ⟨h, ?_⟩
  have hr : (testMacAddress "a" 3 (HsEvent.resp hsOkResp)
      (fun _ => AttemptEvent.http HttpOutcome.transportError)).fst.retry_wait_time =
      30 := by decide
  rw [h, runBatch_results 10 c5_inputs]
  simp [c5_inputs, hr]
  norm_num

/-- C9: the batch loop processes the identities strictly sequentially in
input order and its results list is exactly the per-identity results in
that order (one result per identity, each depending only on its own
identity's observations); an exception raised during an identity's
handshake, or during an authenticate attempt, is captured into that
identity's own result as an `'Error: ...'` message with
`authorized = False`, and — the batch being a total function of the
per-identity results — never aborts the remainder of the batch. -/
theorem c9_batch_sequential (delay : ℚ) (inputs : List BatchInput) :
    (runBatch delay inputs).fst =
      inputs.map (fun inp => (testMacAddress inp.mac 3 inp.hs inp.events).fst) ∧
    (∀ mac e events,
      (testMacAddress mac 3 (HsEvent.raise e) events).fst =
        { initResult mac with message := "Error: " ++ e }) ∧
    (∀ mac e resp events, (handshake none resp).fst = true →
      events 0 = AttemptEvent.raise e →
      (testMacAddress mac 3 (HsEvent.resp resp) events).fst =
        { initResult mac with handshake := true, message := "Error: " ++ e }) := by
  refine ⟨runBatch_results delay inputs, ?_, ?_⟩
  · intro mac e events
    simp [testMacAddress]
  · intro mac e resp events hhs h0
    simp [testMacAddress, hhs, authLoop, h0]

/-- Witness for C9: a concrete identity whose first authenticate attempt
raises is captured as an error result with `authorized = False`. -/
theorem c9_batch_sequential_witness :
    (testMacAddress "00:1A:79:16:BA:04" 3 (HsEvent.resp hsOkResp)
        (fun _ => AttemptEvent.raise "Connection reset")).fst =
      { initResult "00:1A:79:16:BA:04" with
        handshake := true, message := "Error: Connection reset" } :=
  (c9_batch_sequential 0 []).2.2 "00:1A:79:16:BA:04" "Connection reset" hsOkResp
    _ (by decide) rfl

lemma processJs_preserves (r : TestResult) (d : JsData) :
    (processJs r d).handshake = r.handshake ∧
    (processJs r d).rate_limited = r.rate_limited ∧
    (processJs r d).was_rate_limited = r.was_rate_limited ∧
    (processJs r d).retry_wait_time = r.retry_wait_time := by
  refine ⟨?_, ?_, ?_, ?_⟩ <;>
    (unfold processJs; dsimp only; repeat' split) <;> rfl

lemma authLoop_inv (maxR : Nat) (events : Nat → AttemptEvent) :
    ∀ (remaining attempt : Nat) (r : TestResult) (acc : List Nat),
      (authLoop maxR events remaining attempt r acc).fst.handshake =
        r.handshake ∧
      ((r.rate_limited = true → r.was_rate_limited = true) →
        (authLoop maxR events remaining attempt r acc).fst.rate_limited = true →
        (authLoop maxR events remaining attempt r acc).fst.was_rate_limited =
          true) ∧
      (authLoop maxR events remaining attempt r acc).fst.retry_wait_time +
          acc.sum =
        r.retry_wait_time +
          (authLoop maxR events remaining attempt r acc).snd.sum ∧
      ((∀ w ∈ acc, 0 < w) →
        ∀ w ∈ (authLoop maxR events remaining attempt r acc).snd, 0 < w)
  | 0, attempt, r, acc => by
    simp [authLoop]
  | (n + 1), attempt, r, acc => by
    cases he : events attempt with
    | raise e => simp [authLoop, he]
    | http o =>
      cases hm : makeRequest o with
      | some top =>
        cases hj : top.js with
        | none => simp [authLoop, he, hm, hj]
        | some v =>
          cases v with
          | list => simp [authLoop, he, hm, hj]
          | obj d =>
            have hp := processJs_preserves r d
            simp [authLoop, he, hm, hj, hp.1, hp.2.1, hp.2.2.1, hp.2.2.2]
      | none =>
        by_cases hlt : attempt < maxR - 1
        · have ih := authLoop_inv maxR events n (attempt + 1)
            { r with was_rate_limited := true,
                     retry_wait_time := r.retry_wait_time + 10 * 2 ^ attempt }
            (acc ++ [10 * 2 ^ attempt])
          simp only [authLoop, he, hm, if_pos hlt]
          obtain ⟨ih1, ih2, ih3, ih4⟩ := ih
          refine ⟨ih1, fun hinv ht => ih2 (fun _ => rfl) ht, ?_, ?_⟩
          · simp only [List.sum_append, List.sum_cons, List.sum_nil] at ih3
            simp at ih3 ⊢
            omega
          · intro hacc
            refine ih4 ?_
            intro w hw
            rcases List.mem_append.mp hw with h | h
            · exact hacc w h
            · rcases List.mem_singleton.mp h with rfl
              positivity
        · simp [authLoop, he, hm, hlt]

/-- C10: for every input and every sequence of network observations, the
result of `test_mac_address` satisfies the invariants: `authorized = True`
implies `handshake = True`; `rate_limited = True` implies
`was_rate_limited = True`; and `retry_wait_time` equals the sum of the
backoff sleeps actually performed in that run, every one of which is
positive (so the total is a non-negative sum of applied waits). -/
theorem c10_result_invariants (mac : String) (maxRetries : Nat)
    (hs : HsEvent) (events : Nat → AttemptEvent) :
    ((testMacAddress mac maxRetries hs events).fst.authorized = true →
      (testMacAddress mac maxRetries hs events).fst.handshake = true) ∧
    ((testMacAddress mac maxRetries hs events).fst.rate_limited = true →
      (testMacAddress mac maxRetries hs events).fst.was_rate_limited = true) ∧
    (testMacAddress mac maxRetries hs events).fst.retry_wait_time =
      ((testMacAddress mac maxRetries hs events).snd).sum ∧
    (∀ w ∈ (testMacAddress mac maxRetries hs events).snd, 0 < w) := by
  cases hs with
  | raise e =>
    simp [testMacAddress, initResult]
  | resp resp =>
    by_cases hhs : (handshake none resp).fst = true
    · have inv := authLoop_inv maxRetries events maxRetries 0
        { initResult mac with handshake := true } []
      obtain ⟨i1, i2, i3, i4⟩ := inv
      have hred : testMacAddress mac maxRetries (HsEvent.resp resp) events =
          authLoop maxRetries events maxRetries 0
            { initResult mac with handshake := true } [] := by
        simp [testMacAddress, hhs]
      rw [hred]
      refine ⟨fun _ => i1, i2 (fun ht => by simp [initResult] at ht), ?_,
        i4 (fun w hw => by simp at hw)⟩
      simpa [initResult] using i3
    · have hhs' : (handshake none resp).fst = false := by
        revert hhs
        cases (handshake none resp).fst <;> simp
      simp [testMacAddress, hhs', initResult]

/-- Witness for C10 at a run that is rate-limited once and then answers
with a status-2 payload. -/
theorem c10_result_invariants_witness :
    (testMacAddress "00:1A:79:16:BA:05" 3 (HsEvent.resp hsOkResp)
        (fun i => if i = 0 then AttemptEvent.http HttpOutcome.transportError
          else AttemptEvent.http (HttpOutcome.httpResp 200
            (Body.json { js := some (JsVal.obj
              { status := some (StatusVal.int 2) }) })))).fst.retry_wait_time =
      ((testMacAddress "00:1A:79:16:BA:05" 3 (HsEvent.resp hsOkResp)
        (fun i => if i = 0 then AttemptEvent.http HttpOutcome.transportError
          else AttemptEvent.http (HttpOutcome.httpResp 200
            (Body.json { js := some (JsVal.obj
              { status := some (StatusVal.int 2) }) })))).snd).sum :=
  (c10_result_invariants "00:1A:79:16:BA:05" 3 (HsEvent.resp hsOkResp)
    (fun i => if i = 0 then AttemptEvent.http HttpOutcome.transportError
      else AttemptEvent.http (HttpOutcome.httpResp 200
        (Body.json { js := some (JsVal.obj
          { status := some (StatusVal.int 2) }) })))).2.2.1
